import Mathlib

/-
Verification of the code-execution engine of salad-gpu-executor
(src/main.py) against its natural-language specification.

The embedding is shallow: the opaque parts (arbitrary Python code
submitted by a caller) are modelled by their observable behaviour —
whether they compile, how long they run, which exception class they
raise, what they write to the captured streams, and how they transform
the execution scope and the process-global shared state — while the
engine itself (execute_code_with_timeout, lines 56-121 of src/main.py,
and the timeout computation of execute_python_code, lines 163-167) is
translated step by step.

Two aspects of the source are modelled explicitly because the claims
depend on them:
 - line 78 inserts the process-global builtins object into every
   execution scope, so the scope of every run aliases one shared
   mutable object; this is modelled by threading a SharedState value
   through consecutive requests;
 - lines 87-98 bracket the worker inside contextlib.redirect_stdout /
   redirect_stderr, which swap the interpreter-global sys.stdout; the
   small trace model at the end of the definitions reproduces the
   enter/write/exit discipline of contextlib for two concurrent
   requests.

Wall-clock measurement (the execution_time field, time.time()) is real
time and is left outside the embedding; no claim quantifies over it.
-/

namespace SaladExec

/-- A Python value, as far as the engine observes it.  Values the
response schema singles out (string, number, boolean, null, list,
dict) have their own constructors; `builtinsModule` is the
process-global builtins object inserted at line 78 of src/main.py;
`obj` stands for any other Python object, identified by its repr. -/
inductive Value where
  | pyStr (s : String)
  | pyInt (n : Int)
  | pyBool (b : Bool)
  | pyNone
  | pyList (xs : List Value)
  | pyDict (kvs : List (Value × Value))
  | builtinsModule
  | obj (r : String)

/-- The closed set of representable result kinds named by the spec:
string, number, boolean, null, ordered sequence, mapping. -/
def isRepresentableKind : Value → Bool
  | Value.pyStr _ => true
  | Value.pyInt _ => true
  | Value.pyBool _ => true
  | Value.pyNone => true
  | Value.pyList _ => true
  | Value.pyDict _ => true
  | Value.builtinsModule => false
  | Value.obj _ => false

/-- Whether an optional result value is a string (a stringified result
would satisfy this). -/
def isStringResult : Option Value → Bool
  | some (Value.pyStr _) => true
  | _ => false

/-- An execution scope: the exec_globals dict of src/main.py lines
77-80, a mapping from names to values. -/
abbrev Scope : Type := List (String × Value)

/-- The mutable attributes of the process-global builtins object that
line 78 places into every scope.  One single such object exists per
process, so this state persists across requests. -/
abbrev SharedState : Type := List (String × Value)

/-- The exception class of a runtime failure, as far as the except
clauses of src/main.py lines 105-110 discriminate it: the first clause
catches asyncio.TimeoutError, the second SyntaxError, the third any
other Exception (whose concrete class name it reports). -/
inductive ExcClass where
  | asyncioTimeoutError
  | syntaxError
  | otherException (name : String)

/-- How one attempt of the compiled code ends when it is allowed to run
to completion: either normally, leaving a final scope, or by raising an
exception of some class with a message and a traceback rendering. -/
inductive RunResult where
  | normal (finalScope : Scope)
  | raises (cls : ExcClass) (msg : String) (tb : String)

/-- A compiled code object, abstracted to its observable behaviour.
`runTime` is the wall-clock seconds exec needs (none: it never
returns); `run` maps the globals dict it is exec-ed against and the
current shared builtins state to its result, the updated shared state,
and the text written to stdout and stderr up to completion or raise;
`outAtTimeout`/`errAtTimeout` are the stream contents already captured
when the supervisor abandons the worker at the deadline. -/
structure CompiledCode where
  runTime : Option Nat
  run : Scope → SharedState → RunResult × SharedState × String × String
  outAtTimeout : String
  errAtTimeout : String

/-- A submitted code string, abstracted to what compile() at line 84 of
src/main.py does with it: raise SyntaxError with some message, or
produce a compiled code object. -/
inductive Code where
  | syntaxError (msg : String)
  | compiled (c : CompiledCode)

/-- compile(code, "<string>", "exec") at line 84. -/
def compileCode : Code → Except String CompiledCode
  | Code.syntaxError msg => Except.error msg
  | Code.compiled c => Except.ok c

/-- The response dictionary built at lines 114-121 of src/main.py
(execution_time, a wall-clock float, is outside the embedding). -/
structure Outcome where
  success : Bool
  stdout : String
  stderr : String
  result : Option Value
  error : Option String

/-- Instrumentation of one engine invocation: whether the
redirect_stdout/redirect_stderr block at lines 87-98 was entered, and
which globals dict exec was invoked on (none when it never ran). -/
structure ExecTrace where
  captureInvoked : Bool
  scopeUsed : Option Scope

/-- One engine invocation: the outcome, the shared builtins state after
the run, and the instrumentation trace. -/
structure ExecStep where
  outcome : Outcome
  shared : SharedState
  trace : ExecTrace

/-- The fresh globals dict of lines 77-80: `{"__builtins__":
__builtins__, "__name__": "__main__"}`. -/
def exec_globals_init : Scope :=
  [("__builtins__", Value.builtinsModule), ("__name__", Value.pyStr "__main__")]

/-- The message of line 106: `f"Execution timed out after {timeout}
seconds"`. -/
def timeoutMessage (timeout : Int) : String :=
  "Execution timed out after " ++ toString timeout ++ " seconds"

/-- The except chain of lines 105-110 applied to an exception raised
while the worker runs: an asyncio.TimeoutError is formatted as a
timeout, a SyntaxError as `f"Syntax error: {e}"`, and any other
Exception as `f"{type(e).__name__}: {str(e)}\n{traceback.format_exc()}"`. -/
def formatCaught (cls : ExcClass) (msg tb : String) (timeout : Int) : String :=
  match cls with
  | ExcClass.asyncioTimeoutError => timeoutMessage timeout
  | ExcClass.syntaxError => "Syntax error: " ++ msg
  | ExcClass.otherException name => name ++ ": " ++ msg ++ "\n" ++ tb

/-- execute_code_with_timeout (src/main.py lines 56-121), instrumented.

Control flow of the source: compile first (line 84; a SyntaxError there
is caught at line 107 before the redirect block is ever entered); on
success enter the redirect_stdout/redirect_stderr block and await the
worker exec(compiled_code, exec_globals) under asyncio.wait_for
(lines 87-98).  If the worker finishes inside the deadline and exec
returned normally, success=True and the reserved name result is looked
up in the (possibly mutated) globals dict (lines 100-103).  If exec
raised, the except chain formats the error and the streams captured up
to the raise are kept (lines 105-110, 114-121).  If the deadline
elapses first, wait_for raises asyncio.TimeoutError and line 106
formats the timeout message; the abandoned worker's effects on the
shared builtins state are not modelled.  A worker that completes at or
after the deadline is treated as timed out. -/
def execute_instr (code : Code) (timeout : Int) (shared : SharedState) : ExecStep :=
  match compileCode code with
  | Except.error msg =>
      { outcome := { success := false, stdout := "", stderr := "",
                     result := none, error := some ("Syntax error: " ++ msg) },
        shared := shared,
        trace := { captureInvoked := false, scopeUsed := none } }
  | Except.ok c =>
      let timedOut : ExecStep :=
        { outcome := { success := false, stdout := c.outAtTimeout,
                       stderr := c.errAtTimeout, result := none,
                       error := some (timeoutMessage timeout) },
          shared := shared,
          trace := { captureInvoked := true, scopeUsed := some exec_globals_init } }
      match c.runTime with
      | none => timedOut
      | some d =>
          if (d : Int) < timeout then
            match c.run exec_globals_init shared with
            | (RunResult.normal finalScope, shared2, out, err) =>
                { outcome := { success := true, stdout := out, stderr := err,
                               result := finalScope.lookup "result", error := none },
                  shared := shared2,
                  trace := { captureInvoked := true, scopeUsed := some exec_globals_init } }
            | (RunResult.raises cls msg tb, shared2, out, err) =>
                { outcome := { success := false, stdout := out, stderr := err,
                               result := none,
                               error := some (formatCaught cls msg tb timeout) },
                  shared := shared2,
                  trace := { captureInvoked := true, scopeUsed := some exec_globals_init } }
          else timedOut

/-- The outcome of one engine invocation, as returned to the handler. -/
def execute_code_with_timeout (code : Code) (timeout : Int) (shared : SharedState) : Outcome :=
  (execute_instr code timeout shared).outcome

/-- A sequence of requests served by one process: each invocation gets
its own fresh scope, but the shared builtins state produced by one run
is the shared builtins state the next run starts from, because every
scope aliases the same process-global object (line 78). -/
def run_requests (reqs : List (Code × Int)) (shared : SharedState) :
    List Outcome × SharedState :=
  match reqs with
  | [] => ([], shared)
  | (c, t) :: rest =>
      let step := execute_instr c t shared
      let tail := run_requests rest step.shared
      (step.outcome :: tail.1, tail.2)

/-- Python `request.timeout or PYTHON_EXECUTE_TIMEOUT` (line 164):
None and 0 are falsy, every other integer is truthy. -/
def py_or_default (requested : Option Int) (dflt : Int) : Int :=
  match requested with
  | none => dflt
  | some t => if t = 0 then dflt else t

/-- The effective timeout computed by execute_python_code at lines
163-167: `timeout = request.timeout or PYTHON_EXECUTE_TIMEOUT` followed
by `timeout = min(timeout, PYTHON_EXECUTE_TIMEOUT)`. -/
def effective_timeout (requested : Option Int) (maxTimeout : Int) : Int :=
  min (py_or_default requested maxTimeout) maxTimeout

/-!  A trace model of the redirect_stdout block of lines 87-98 under
concurrent requests.

contextlib.redirect_stdout works on the interpreter-global sys.stdout:
its enter saves the current sys.stdout on the instance and assigns the
new target to the global; its exit restores the saved value to the
global; a print performed by a worker thread writes to whatever buffer
the global sys.stdout designates at that moment.  The handler is an
async endpoint, so between entering the redirect block and the
worker's first write the event loop may schedule another request's
coroutine, which enters its own redirect block on the same global.

Runs are identified by a request id.  The state tracks which run's
StringIO buffer the global sys.stdout currently designates (none = the
real process stdout), the contents of each run's buffer, and the value
each redirect instance saved on enter. -/

/-- One event of the interleaved execution of several requests. -/
inductive StreamEvent where
  | enter (rid : Nat)
  | write (rid : Nat) (s : String)
  | exit_ (rid : Nat)

/-- The interpreter-global stream state shared by all requests. -/
structure SysStreamState where
  target : Option Nat
  bufs : List (Nat × String)
  saved : List (Nat × Option Nat)

/-- Append text to the buffer of run k. -/
def bufAppend (bufs : List (Nat × String)) (k : Nat) (s : String) :
    List (Nat × String) :=
  bufs.map (fun p => if p.1 = k then (p.1, p.2 ++ s) else p)

/-- One step of the trace model: enter saves the current global target
and redirects the global to this run's buffer; a write by any run's
worker appends to the buffer the global currently designates (or to
the real stdout, outside the model, when it designates none); exit
restores the target this run saved. -/
def stepEvent (st : SysStreamState) (e : StreamEvent) : SysStreamState :=
  match e with
  | StreamEvent.enter rid =>
      { st with saved := (rid, st.target) :: st.saved, target := some rid }
  | StreamEvent.write _ s =>
      match st.target with
      | some k => { st with bufs := bufAppend st.bufs k s }
      | none => st
  | StreamEvent.exit_ rid =>
      { st with target := (st.saved.lookup rid).getD none }

/-- Initial stream state for two concurrent requests 1 and 2: global
sys.stdout designates the real stdout, both StringIO buffers empty. -/
def initStreams : SysStreamState :=
  { target := none, bufs := [(1, ""), (2, "")], saved := [] }

/-- Run a whole interleaved trace. -/
def runTrace (events : List StreamEvent) : SysStreamState :=
  events.foldl stepEvent initStreams

/-- The contents a run's StringIO reports at the end (line 116:
stdout_capture.getvalue()). -/
def capturedStdout (st : SysStreamState) (rid : Nat) : String :=
  (st.bufs.lookup rid).getD ""

/-- The event sequence one request contributes, per lines 87-98: enter
its redirect, have its worker print its marker, exit its redirect. -/
def requestEvents (rid : Nat) (marker : String) : List StreamEvent :=
  [StreamEvent.enter rid, StreamEvent.write rid marker, StreamEvent.exit_ rid]

/-- t is an interleaving of l1 and l2: a merge preserving the internal
order of each. -/
inductive Interleaving {α : Type} : List α → List α → List α → Prop where
  | nil : Interleaving [] [] []
  | left {a : α} {l1 l2 t : List α} :
      Interleaving l1 l2 t → Interleaving (a :: l1) l2 (a :: t)
  | right {a : α} {l1 l2 t : List α} :
      Interleaving l1 l2 t → Interleaving l1 (a :: l2) (a :: t)

/-- Marker printed by request 1 in the interleaving scenario. -/
def marker1 : String := "output-of-request-one"

/-- Marker printed by request 2 in the interleaving scenario. -/
def marker2 : String := "output-of-request-two"

/-- The overlapping schedule: both requests enter their redirect blocks
before either worker writes (the awaits at lines 90-98 suspend each
coroutine, letting the event loop run the other), then both workers
print, then the blocks unwind. -/
def overlappedTrace : List StreamEvent :=
  [StreamEvent.enter 1, StreamEvent.enter 2,
   StreamEvent.write 1 marker1, StreamEvent.write 2 marker2,
   StreamEvent.exit_ 2, StreamEvent.exit_ 1]

/-!  Concrete submitted programs, given by their observable behaviour,
used as witnesses and counterexamples below.  Each models a short
Python program named in its comment. -/

/-- Behaviour of `print("hi"); result = 1 + 1 + 40` (well, binding 42):
compiles, finishes immediately, writes "hi\n", binds result to 42. -/
def sampleResultCompiled : CompiledCode :=
  { runTime := some 0,
    run := fun _ sh => (RunResult.normal [("result", Value.pyInt 42)], sh, "hi\n", ""),
    outAtTimeout := "", errAtTimeout := "" }

/-- The submitted code wrapping sampleResultCompiled. -/
def sampleResultCode : Code := Code.compiled sampleResultCompiled

/-- Behaviour of the submission `x =`: compile() raises SyntaxError
whose str() is this parser message. -/
def syntaxBadCode : Code :=
  Code.syntaxError "invalid syntax (<string>, line 1)"

/-- The traceback rendering attached to the runtime ValueError below. -/
def valueErrorTraceback : String :=
  "Traceback (most recent call last):\n  File \"<string>\", line 2, in <module>\nValueError: boom\n"

/-- Behaviour of `print("partial"); raise ValueError("boom")`: compiles,
writes partial output, then raises ValueError. -/
def raiseValueErrorCompiled : CompiledCode :=
  { runTime := some 0,
    run := fun _ sh =>
      (RunResult.raises (ExcClass.otherException "ValueError") "boom" valueErrorTraceback,
       sh, "partial\n", ""),
    outAtTimeout := "", errAtTimeout := "" }

/-- The submitted code wrapping raiseValueErrorCompiled. -/
def raiseValueErrorCode : Code := Code.compiled raiseValueErrorCompiled

/-- The traceback a faithful kind-plus-trace report of the runtime
SyntaxError below would have to contain. -/
def syntaxRaiseTraceback : String :=
  "Traceback (most recent call last):\n  File \"<string>\", line 1, in <module>\nSyntaxError: boom\n"

/-- Behaviour of `raise SyntaxError("boom")`: the source text compiles
(it is a perfectly well-formed raise statement), and execution then
raises an exception whose class is SyntaxError — which the except
chain at line 107 of src/main.py intercepts before the generic clause
at line 109 can report its kind and trace. -/
def raiseSyntaxErrorCompiled : CompiledCode :=
  { runTime := some 0,
    run := fun _ sh =>
      (RunResult.raises ExcClass.syntaxError "boom" syntaxRaiseTraceback, sh, "", ""),
    outAtTimeout := "", errAtTimeout := "" }

/-- The submitted code wrapping raiseSyntaxErrorCompiled. -/
def raiseSyntaxErrorCode : Code := Code.compiled raiseSyntaxErrorCompiled

/-- Behaviour of `while True: pass`: compiles, never returns, writes
nothing before the deadline. -/
def infiniteLoopCompiled : CompiledCode :=
  { runTime := none,
    run := fun _ sh => (RunResult.normal [], sh, "", ""),
    outAtTimeout := "", errAtTimeout := "" }

/-- The submitted code wrapping infiniteLoopCompiled. -/
def infiniteLoopCode : Code := Code.compiled infiniteLoopCompiled

/-- Behaviour of `__builtins__.leaked_flag = 42` followed by `x = 1`:
the run completes normally; its only scope binding is x, but it has
set an attribute on the process-global builtins object that line 78
of src/main.py placed into its scope. -/
def builtinsMutatorCompiled : CompiledCode :=
  { runTime := some 0,
    run := fun _ sh =>
      (RunResult.normal [("x", Value.pyInt 1)],
       ("leaked_flag", Value.pyInt 42) :: sh, "", ""),
    outAtTimeout := "", errAtTimeout := "" }

/-- The submitted code wrapping builtinsMutatorCompiled. -/
def builtinsMutatorCode : Code := Code.compiled builtinsMutatorCompiled

/-- Behaviour of `result = __builtins__.leaked_flag`: reads, through
the __builtins__ entry of its own fresh scope, the attribute state of
the shared builtins object and binds what it finds to result. -/
def builtinsReaderCompiled : CompiledCode :=
  { runTime := some 0,
    run := fun _ sh =>
      (RunResult.normal [("result", (sh.lookup "leaked_flag").getD Value.pyNone)],
       sh, "", ""),
    outAtTimeout := "", errAtTimeout := "" }

/-- The submitted code wrapping builtinsReaderCompiled. -/
def builtinsReaderCode : Code := Code.compiled builtinsReaderCompiled

/-- Behaviour of `class A: pass` followed by `result = A()`: binds the
reserved name to an arbitrary object outside the closed set of
representable kinds. -/
def objResultCompiled : CompiledCode :=
  { runTime := some 0,
    run := fun _ sh =>
      (RunResult.normal [("result", Value.obj "<A object at 0x7f2>")], sh, "", ""),
    outAtTimeout := "", errAtTimeout := "" }

/-- The submitted code wrapping objResultCompiled. -/
def objResultCode : Code := Code.compiled objResultCompiled

/-- C1: for every code string that compiles and whose execution
completes normally within the timeout, the outcome has success=true,
and the outcome's result field equals the value bound to the name
result in the execution scope after the run when such a binding
exists, and is absent when none exists (the lookup on the final scope
captures both cases). -/
theorem execute_normal_reports_scope_result
    (code : Code) (timeout : Int) (shared : SharedState)
    (c : CompiledCode) (d : Nat) (fs : Scope) (sh2 : SharedState) (out err : String)
    (hc : compileCode code = Except.ok c)
    (hd : c.runTime = some d)
    (hlt : (d : Int) < timeout)
    (hr : c.run exec_globals_init shared = (RunResult.normal fs, sh2, out, err)) :
    (execute_code_with_timeout code timeout shared).success = true ∧
    (execute_code_with_timeout code timeout shared).result = fs.lookup "result" := by
  cases code with
  | syntaxError m => simp [compileCode] at hc
  | compiled c0 =>
      simp only [compileCode, Except.ok.injEq] at hc
      subst hc
      simp [execute_code_with_timeout, execute_instr, compileCode, hd, hlt, hr]

/-- Witness for C1 at the program that binds result to 42. -/
theorem execute_normal_reports_scope_result_witness :
    (execute_code_with_timeout sampleResultCode 5 []).success = true ∧
    (execute_code_with_timeout sampleResultCode 5 []).result = some (Value.pyInt 42) := by
  have h := execute_normal_reports_scope_result sampleResultCode 5 []
    sampleResultCompiled 0 [("result", Value.pyInt 42)] [] "hi\n" ""
    rfl rfl (by decide) rfl
  refine ⟨h.1, ?_⟩
  rw [h.2]
  rfl

/-- C2: for every code string that fails to compile, the outcome has
success=false, the error string is "Syntax error: " followed by the
parser's message, stdout and stderr are empty, the result is absent,
and the code is never executed: the redirect block is not entered and
exec is never invoked on any scope. -/
theorem execute_syntax_error_fast_path
    (code : Code) (timeout : Int) (shared : SharedState) (msg : String)
    (hc : compileCode code = Except.error msg) :
    (execute_instr code timeout shared).outcome.success = false ∧
    (execute_instr code timeout shared).outcome.error = some ("Syntax error: " ++ msg) ∧
    (execute_instr code timeout shared).outcome.stdout = "" ∧
    (execute_instr code timeout shared).outcome.stderr = "" ∧
    (execute_instr code timeout shared).outcome.result = none ∧
    (execute_instr code timeout shared).trace.captureInvoked = false ∧
    (execute_instr code timeout shared).trace.scopeUsed = none := by
  cases code with
  | compiled c0 => simp [compileCode] at hc
  | syntaxError m =>
      simp only [compileCode, Except.error.injEq] at hc
      subst hc
      simp [execute_instr, compileCode]

/-- Witness for C2 at the submission whose parse fails. -/
theorem execute_syntax_error_fast_path_witness :
    (execute_instr syntaxBadCode 5 []).outcome.success = false ∧
    (execute_instr syntaxBadCode 5 []).outcome.error =
      some "Syntax error: invalid syntax (<string>, line 1)" ∧
    (execute_instr syntaxBadCode 5 []).trace.captureInvoked = false := by
  have h := execute_syntax_error_fast_path syntaxBadCode 5 []
    "invalid syntax (<string>, line 1)" rfl
  refine ⟨h.1, ?_, h.2.2.2.2.2.1⟩
  rw [h.2.1]
  rfl

/-- C3: for every positive requested timeout the effective timeout is
min(requested, configured maximum); an absent timeout uses the
configured maximum itself; and no request can push the effective bound
past the configured ceiling. -/
theorem effective_timeout_is_min_clamp
    (t maxT : Int) (ht : 0 < t) :
    effective_timeout (some t) maxT = min t maxT ∧
    effective_timeout none maxT = maxT ∧
    ∀ r : Option Int, effective_timeout r maxT ≤ maxT := by
  refine ⟨?_, ?_, ?_⟩
  · have hne : t ≠ 0 := by omega
    simp [effective_timeout, py_or_default, hne]
  · simp [effective_timeout, py_or_default]
  · intro r
    exact min_le_right _ _

/-- Witness for C3 at the spec's example: requesting 999999 against a
configured maximum of 3600. -/
theorem effective_timeout_is_min_clamp_witness :
    effective_timeout (some 999999) 3600 = min (999999 : Int) 3600 ∧
    effective_timeout none 3600 = 3600 ∧
    ∀ r : Option Int, effective_timeout r 3600 ≤ 3600 :=
  effective_timeout_is_min_clamp 999999 3600 (by decide)

/-- C4: for every outcome the engine produces, success=true holds
exactly when no error is present, and whenever an error is present the
result field is absent. -/
theorem outcome_success_xor_error
    (code : Code) (timeout : Int) (shared : SharedState) :
    ((execute_code_with_timeout code timeout shared).success = true ↔
      (execute_code_with_timeout code timeout shared).error = none) ∧
    ((execute_code_with_timeout code timeout shared).error ≠ none →
      (execute_code_with_timeout code timeout shared).result = none) := by
  cases code with
  | syntaxError m => simp [execute_code_with_timeout, execute_instr, compileCode]
  | compiled c =>
      cases hrt : c.runTime with
      | none => simp [execute_code_with_timeout, execute_instr, compileCode, hrt]
      | some d =>
          by_cases hlt : (d : Int) < timeout
          · rcases hr : c.run exec_globals_init shared with ⟨rr, sh2, out, err⟩
            cases rr <;>
              simp [execute_code_with_timeout, execute_instr, compileCode, hrt, hlt, hr]
          · simp [execute_code_with_timeout, execute_instr, compileCode, hrt, hlt]

/-- C5 counterexample: the program `raise SyntaxError("boom")` compiles
and raises during execution, yet its outcome's error is the
syntax-error format of line 108 — "Syntax error: boom" — and not the
kind-name, message and traceback format the claim requires for every
runtime failure, because the except clause at line 107 intercepts the
exception before the generic clause at lines 109-110. -/
theorem runtime_syntax_error_not_kind_trace :
    (execute_code_with_timeout raiseSyntaxErrorCode 5 []).success = false ∧
    (execute_code_with_timeout raiseSyntaxErrorCode 5 []).error =
      some "Syntax error: boom" ∧
    "Syntax error: boom" ≠
      "SyntaxError" ++ ": " ++ "boom" ++ "\n" ++ syntaxRaiseTraceback := by
  refine ⟨rfl, rfl, by decide⟩

/-- C5 amended: for every code string that compiles but raises, during
execution, an exception that is neither an asyncio.TimeoutError nor a
SyntaxError, the outcome has success=false, an error string consisting
of the raised failure's concrete kind name concatenated with its
message and the full traceback of its origin, and the stdout/stderr
text captured up to the point of failure is still returned. -/
theorem runtime_exception_kind_message_trace
    (code : Code) (timeout : Int) (shared : SharedState)
    (c : CompiledCode) (d : Nat) (name msg tb : String)
    (sh2 : SharedState) (out err : String)
    (hc : compileCode code = Except.ok c)
    (hd : c.runTime = some d)
    (hlt : (d : Int) < timeout)
    (hr : c.run exec_globals_init shared =
      (RunResult.raises (ExcClass.otherException name) msg tb, sh2, out, err)) :
    (execute_code_with_timeout code timeout shared).success = false ∧
    (execute_code_with_timeout code timeout shared).error =
      some (name ++ ": " ++ msg ++ "\n" ++ tb) ∧
    (execute_code_with_timeout code timeout shared).stdout = out ∧
    (execute_code_with_timeout code timeout shared).stderr = err := by
  cases code with
  | syntaxError m => simp [compileCode] at hc
  | compiled c0 =>
      simp only [compileCode, Except.ok.injEq] at hc
      subst hc
      simp [execute_code_with_timeout, execute_instr, compileCode, hd, hlt, hr,
        formatCaught]

/-- Witness for the amended C5 at the program that prints partial
output and then raises ValueError("boom"). -/
theorem runtime_exception_kind_message_trace_witness :
    (execute_code_with_timeout raiseValueErrorCode 5 []).success = false ∧
    (execute_code_with_timeout raiseValueErrorCode 5 []).error =
      some ("ValueError" ++ ": " ++ "boom" ++ "\n" ++ valueErrorTraceback) ∧
    (execute_code_with_timeout raiseValueErrorCode 5 []).stdout = "partial\n" := by
  have h := runtime_exception_kind_message_trace raiseValueErrorCode 5 []
    raiseValueErrorCompiled 0 "ValueError" "boom" valueErrorTraceback [] "partial\n" ""
    rfl rfl (by decide) rfl
  exact ⟨h.1, h.2.1, h.2.2.1⟩

/-- C6: for every execution whose deadline elapses before the worker
reports back — the worker never returns, or needs at least the
effective timeout — the outcome has success=false, the error string
"Execution timed out after {timeout} seconds" with the effective
timeout substituted, and an absent result. -/
theorem deadline_elapsed_timeout_outcome
    (code : Code) (timeout : Int) (shared : SharedState) (c : CompiledCode)
    (hc : compileCode code = Except.ok c)
    (hto : c.runTime = none ∨ ∃ d, c.runTime = some d ∧ timeout ≤ (d : Int)) :
    (execute_code_with_timeout code timeout shared).success = false ∧
    (execute_code_with_timeout code timeout shared).error =
      some (timeoutMessage timeout) ∧
    (execute_code_with_timeout code timeout shared).result = none := by
  cases code with
  | syntaxError m => simp [compileCode] at hc
  | compiled c0 =>
      simp only [compileCode, Except.ok.injEq] at hc
      subst hc
      rcases hto with hnone | ⟨d, hd, hle⟩
      · simp [execute_code_with_timeout, execute_instr, compileCode, hnone]
      · have hnlt : ¬ (d : Int) < timeout := not_lt.mpr hle
        simp [execute_code_with_timeout, execute_instr, compileCode, hd, hnlt]

/-- Witness for C6 at the spec's example: `while True: pass` with an
effective timeout of 1 second. -/
theorem deadline_elapsed_timeout_outcome_witness :
    (execute_code_with_timeout infiniteLoopCode 1 []).success = false ∧
    (execute_code_with_timeout infiniteLoopCode 1 []).error =
      some "Execution timed out after 1 seconds" ∧
    (execute_code_with_timeout infiniteLoopCode 1 []).result = none := by
  have h := deadline_elapsed_timeout_outcome infiniteLoopCode 1 []
    infiniteLoopCompiled rfl (Or.inl rfl)
  refine ⟨h.1, ?_, h.2.2⟩
  rw [h.2.1]
  rfl

/-- C7 counterexample: a first request runs
`__builtins__.leaked_flag = 42; x = 1` and a second, later request
runs `result = __builtins__.leaked_flag`.  Both scopes are freshly
created dicts, but line 78 of src/main.py seeds each of them with the
one process-global builtins object, so the second run observes, from
its own scope, the state mutation the first run made: its outcome
reports result 42 while the first run's outcome reports none. -/
theorem cross_request_builtins_mutation_leaks :
    ((run_requests [(builtinsMutatorCode, 5), (builtinsReaderCode, 5)] []).1.map
        Outcome.result) = [none, some (Value.pyInt 42)] := by
  rfl

/-- C7 amended: every run that reaches execution does so on a freshly
built scope equal to the two-entry seed dict of lines 77-80 —
independent of the shared state left by earlier requests — and that
seed dict binds no name other than __builtins__ and __name__, so a
name binding made by one run's code is never present in another run's
starting scope; isolation nevertheless stops at the seeded
__builtins__ entry, which aliases the one process-global builtins
object (see the counterexample). -/
theorem fresh_scope_per_run
    (code : Code) (timeout : Int) (shared : SharedState) (c : CompiledCode)
    (hc : compileCode code = Except.ok c) :
    (execute_instr code timeout shared).trace.scopeUsed = some exec_globals_init ∧
    ∀ n : String, n ≠ "__builtins__" → n ≠ "__name__" →
      exec_globals_init.lookup n = none := by
  cases code with
  | syntaxError m => simp [compileCode] at hc
  | compiled c0 =>
      constructor
      · cases hrt : c0.runTime with
        | none => simp [execute_instr, compileCode, hrt]
        | some d =>
            by_cases hlt : (d : Int) < timeout
            · rcases hr : c0.run exec_globals_init shared with ⟨rr, sh2, out, err⟩
              cases rr <;> simp [execute_instr, compileCode, hrt, hlt, hr]
            · simp [execute_instr, compileCode, hrt, hlt]
      · intro n h1 h2
        have e1 : (n == "__builtins__") = false := beq_eq_false_iff_ne.mpr h1
        have e2 : (n == "__name__") = false := beq_eq_false_iff_ne.mpr h2
        simp [exec_globals_init, List.lookup, e1, e2]

/-- Witness for the amended C7: the sample run executes on the seed
dict, and the seed dict does not bind the name leaked_flag. -/
theorem fresh_scope_per_run_witness :
    (execute_instr sampleResultCode 5 []).trace.scopeUsed = some exec_globals_init ∧
    exec_globals_init.lookup "leaked_flag" = none := by
  have h := fresh_scope_per_run sampleResultCode 5 [] sampleResultCompiled rfl
  exact ⟨h.1, h.2 "leaked_flag" (by decide) (by decide)⟩

/-- C8: under the schedule in which both requests enter their redirect
blocks before either worker prints — a schedule the awaits at lines
90-98 of src/main.py make possible, since redirect_stdout swaps the
interpreter-global sys.stdout — request 2's captured stdout contains
request 1's marker (and request 1's own output is lost entirely),
refuting the claim that neither run's returned stdout can contain the
other run's markers.  The first conjunct checks the schedule is a
legal interleaving of the two requests' own event sequences. -/
theorem concurrent_capture_leaks_across_requests :
    Interleaving (requestEvents 1 marker1) (requestEvents 2 marker2) overlappedTrace ∧
    capturedStdout (runTrace overlappedTrace) 2 = marker1 ++ marker2 ∧
    capturedStdout (runTrace overlappedTrace) 1 = "" := by
  refine ⟨?_, rfl, rfl⟩
  exact Interleaving.left (Interleaving.right (Interleaving.left
    (Interleaving.right (Interleaving.right (Interleaving.left Interleaving.nil)))))

/-- C9 counterexample: code binding the reserved name to an instance of
a user-defined class completes with success=true and the outcome's
result field carrying that arbitrary object unchanged — it is neither
rejected (no error, run succeeded) nor stringified (the result is not
a string value), although its kind lies outside the closed
representable set the claim allows. -/
theorem arbitrary_object_result_returned :
    (execute_code_with_timeout objResultCode 5 []).success = true ∧
    (execute_code_with_timeout objResultCode 5 []).result =
      some (Value.obj "<A object at 0x7f2>") ∧
    (execute_code_with_timeout objResultCode 5 []).error = none ∧
    isRepresentableKind (Value.obj "<A object at 0x7f2>") = false ∧
    isStringResult (execute_code_with_timeout objResultCode 5 []).result = false := by
  exact ⟨rfl, rfl, rfl, rfl, rfl⟩

/-- C9 amended: whatever value the executed code binds to the reserved
name result — of any kind whatsoever — is copied into the outcome's
result field verbatim; the engine applies no restriction to a closed
set of kinds, no rejection and no stringification (the response field
is declared Optional[Any] at line 51 of src/main.py and filled
directly from the scope at lines 102-103). -/
theorem result_value_returned_verbatim
    (code : Code) (timeout : Int) (shared : SharedState)
    (c : CompiledCode) (d : Nat) (v : Value) (rest : Scope)
    (sh2 : SharedState) (out err : String)
    (hc : compileCode code = Except.ok c)
    (hd : c.runTime = some d)
    (hlt : (d : Int) < timeout)
    (hr : c.run exec_globals_init shared =
      (RunResult.normal (("result", v) :: rest), sh2, out, err)) :
    (execute_code_with_timeout code timeout shared).result = some v := by
  cases code with
  | syntaxError m => simp [compileCode] at hc
  | compiled c0 =>
      simp only [compileCode, Except.ok.injEq] at hc
      subst hc
      simp [execute_code_with_timeout, execute_instr, compileCode, hd, hlt, hr,
        List.lookup]

/-- Witness for the amended C9 at the run binding result to an
arbitrary object. -/
theorem result_value_returned_verbatim_witness :
    (execute_code_with_timeout objResultCode 7 []).result =
      some (Value.obj "<A object at 0x7f2>") :=
  result_value_returned_verbatim objResultCode 7 [] objResultCompiled 0
    (Value.obj "<A object at 0x7f2>") [] [] "" "" rfl rfl (by decide) rfl

/-- C10: a request that explicitly supplies a timeout of 0 is not
executed with a zero-second bound: because line 164 treats a falsy
timeout as absent, the effective timeout is the configured maximum —
exactly what an absent timeout yields. -/
theorem zero_timeout_silently_defaults
    (maxT : Int) :
    effective_timeout (some 0) maxT = maxT ∧
    effective_timeout (some 0) maxT = effective_timeout none maxT := by
  constructor
  · simp [effective_timeout, py_or_default]
  · simp [effective_timeout, py_or_default]

end SaladExec
